import Mathlib

/-!
Verification of the Sefaria MCP server's normalization and dispatch layer.

The development shallowly embeds the two Python source files
(`sefaria_jewish_library/server.py` and `sefaria_jewish_library/sefaria_handler.py`).
JSON values and Python's loosely-typed dictionary operations are modelled by the
`Json` type together with Python-faithful helpers (`pyTruthy`, `pyLen`, item access,
`dict.get`, the `in` operator, `str.join`, iteration).  A Python exception is
modelled as the `Except.error` branch carrying the message; `async def` functions
are embedded as ordinary functions (the event loop is immaterial to the logic).
The upstream HTTP service is an explicit parameter (`Upstream`), and every handler
returns, besides its value, the list of upstream requests it issued, so that
claims about upstream contact ("never retried", "never contacted") are statable.
-/

set_option autoImplicit false

/-- A JSON value, as decoded by Python's `json` module: `None`, booleans, numbers
(integers suffice for every value this server manipulates), strings, lists and
dicts (association lists in insertion order, keys unique as produced by
`json.loads`). -/
inductive Json where
  | null
  | bool (b : Bool)
  | num (n : Int)
  | str (s : String)
  | arr (xs : List Json)
  | obj (fields : List (String × Json))
deriving Repr

mutual
/-- Structural equality test on `Json` (Python `==` on JSON-decoded values). -/
def Json.beq : Json → Json → Bool
  | .null, .null => true
  | .bool a, .bool b => a == b
  | .num a, .num b => a == b
  | .str a, .str b => a == b
  | .arr a, .arr b => Json.beqList a b
  | .obj a, .obj b => Json.beqFields a b
  | _, _ => false
termination_by structural a _ => a

/-- Elementwise equality test on JSON lists. -/
def Json.beqList : List Json → List Json → Bool
  | [], [] => true
  | a :: as, b :: bs => Json.beq a b && Json.beqList as bs
  | _, _ => false
termination_by structural a _ => a

/-- Entrywise equality test on JSON object fields. -/
def Json.beqFields : List (String × Json) → List (String × Json) → Bool
  | [], [] => true
  | (k, v) :: as, (k', v') :: bs => k == k' && Json.beq v v' && Json.beqFields as bs
  | _, _ => false
termination_by structural a _ => a
end

mutual
theorem Json.eq_of_beq : ∀ a b : Json, Json.beq a b = true → a = b
  | .null, .null, _ => rfl
  | .bool a, .bool b, h => by
    simp only [Json.beq, beq_iff_eq] at h; rw [h]
  | .num a, .num b, h => by
    simp only [Json.beq, beq_iff_eq] at h; rw [h]
  | .str a, .str b, h => by
    simp only [Json.beq, beq_iff_eq] at h; rw [h]
  | .arr a, .arr b, h => by
    rw [Json.eqList_of_beq a b h]
  | .obj a, .obj b, h => by
    rw [Json.eqFields_of_beq a b h]

theorem Json.eqList_of_beq : ∀ as bs : List Json, Json.beqList as bs = true → as = bs
  | [], [], _ => rfl
  | _ :: _, [], h => by simp [Json.beqList] at h
  | [], _ :: _, h => by simp [Json.beqList] at h
  | a :: as, b :: bs, h => by
    simp only [Json.beqList, Bool.and_eq_true] at h
    rw [Json.eq_of_beq a b h.1, Json.eqList_of_beq as bs h.2]

theorem Json.eqFields_of_beq :
    ∀ as bs : List (String × Json), Json.beqFields as bs = true → as = bs
  | [], [], _ => rfl
  | _ :: _, [], h => by simp [Json.beqFields] at h
  | [], _ :: _, h => by simp [Json.beqFields] at h
  | (k, v) :: as, (k', v') :: bs, h => by
    simp only [Json.beqFields, Bool.and_eq_true, beq_iff_eq] at h
    rw [h.1.1, Json.eq_of_beq v v' h.1.2, Json.eqFields_of_beq as bs h.2]
end

mutual
theorem Json.beq_refl : ∀ a : Json, Json.beq a a = true
  | .null => rfl
  | .bool b => by simp [Json.beq]
  | .num n => by simp [Json.beq]
  | .str s => by simp [Json.beq]
  | .arr xs => Json.beqList_refl xs
  | .obj fs => Json.beqFields_refl fs

theorem Json.beqList_refl : ∀ xs : List Json, Json.beqList xs xs = true
  | [] => rfl
  | x :: t => by simp [Json.beqList, Json.beq_refl x, Json.beqList_refl t]

theorem Json.beqFields_refl : ∀ fs : List (String × Json), Json.beqFields fs fs = true
  | [] => rfl
  | (k, v) :: t => by simp [Json.beqFields, Json.beq_refl v, Json.beqFields_refl t]
end

instance : DecidableEq Json := fun a b =>
  match h : Json.beq a b with
  | true => isTrue (Json.eq_of_beq a b h)
  | false => isFalse fun he => by subst he; rw [Json.beq_refl a] at h; cases h

instance {α β : Type} [DecidableEq α] [DecidableEq β] : DecidableEq (Except α β) :=
  fun a b =>
    match a, b with
    | .ok x, .ok y =>
      if h : x = y then isTrue (by rw [h]) else isFalse fun he => by cases he; exact h rfl
    | .error x, .error y =>
      if h : x = y then isTrue (by rw [h]) else isFalse fun he => by cases he; exact h rfl
    | .ok _, .error _ => isFalse fun he => by cases he
    | .error _, .ok _ => isFalse fun he => by cases he

/-- Character-level prefix test on strings (kernel-friendly equivalent of the
byte-level `String.isPrefixOf`). -/
def strIsPrefixOf (p s : String) : Bool :=
  p.data.isPrefixOf s.data

/-- First-match association lookup, the semantics of `d[k]` / `d.get(k)` on a
Python dict in insertion order. -/
def lookupKey : List (String × Json) → String → Option Json
  | [], _ => none
  | (k, v) :: t, k' => if k = k' then some v else lookupKey t k'

/-- Python truthiness (`bool(x)`) for JSON-decoded values. -/
def pyTruthy : Json → Bool
  | .null => false
  | .bool b => b
  | .num n => n != 0
  | .str s => s != ""
  | .arr xs => !xs.isEmpty
  | .obj fs => !fs.isEmpty

/-- Python `len(x)`; raises `TypeError` on values without a length. -/
def pyLen : Json → Except String Nat
  | .str s => .ok s.length
  | .arr xs => .ok xs.length
  | .obj fs => .ok fs.length
  | _ => .error "TypeError: object has no len()"

/-- Python `x[k]` for a string key: key lookup on dicts (`KeyError` when absent),
`TypeError` otherwise. -/
def Json.idx : Json → String → Except String Json
  | .obj fs, k =>
    match lookupKey fs k with
    | some v => .ok v
    | none => .error ("KeyError: " ++ k)
  | .str _, _ => .error "TypeError: string indices must be integers"
  | _, _ => .error "TypeError: object is not subscriptable"

/-- Python `x.get(k, d)`: only dicts have `.get`; a present key returns its value
(even `None`), an absent key returns the default. -/
def Json.pyGetD : Json → String → Json → Except String Json
  | .obj fs, k, d => .ok ((lookupKey fs k).getD d)
  | _, _, _ => .error "AttributeError: object has no attribute get"

/-- Whether `needle` occurs inside `hay` (Python `needle in hay` on strings). -/
def strHasSubstr (needle hay : String) : Bool :=
  needle.isEmpty || (hay.splitOn needle).length > 1

/-- Python `k in x` for a string `k`: key membership on dicts, element membership
on lists, substring test on strings, `TypeError` otherwise. -/
def Json.pyIn : Json → String → Except String Bool
  | .obj fs, k => .ok (lookupKey fs k).isSome
  | .arr xs, k => .ok (xs.contains (.str k))
  | .str s, k => .ok (strHasSubstr k s)
  | _, _ => .error "TypeError: argument of type is not iterable"

/-- Python `x[k] = v` on a dict: replaces the first (unique) occurrence of the key
in place, or appends the pair; `TypeError` on non-dicts. -/
def setKey : List (String × Json) → String → Json → List (String × Json)
  | [], k, v => [(k, v)]
  | (k', v') :: t, k, v => if k' = k then (k, v) :: t else (k', v') :: setKey t k v

/-- Python item assignment `x[k] = v` (string key). -/
def Json.setItem : Json → String → Json → Except String Json
  | .obj fs, k, v => .ok (.obj (setKey fs k v))
  | _, _, _ => .error "TypeError: object does not support item assignment"

/-- Python iteration `for x in v`: lists yield elements, strings yield
one-character strings, dicts yield their keys; `TypeError` otherwise. -/
def pyIter : Json → Except String (List Json)
  | .arr xs => .ok xs
  | .str s => .ok (s.data.map fun c => .str (String.mk [c]))
  | .obj fs => .ok (fs.map fun p => .str p.1)
  | _ => .error "TypeError: object is not iterable"

/-- Join a list of strings with a separator (the core of Python `sep.join`). -/
def joinSep (sep : String) : List String → String
  | [] => ""
  | x :: t => x ++ (if t.isEmpty then "" else sep ++ joinSep sep t)

/-- Extracts a list of strings, raising `TypeError` at the first non-string
(Python `str.join` over a list). -/
def strsOf : List Json → Except String (List String)
  | [] => .ok []
  | .str s :: t => do
    let r ← strsOf t
    pure (s :: r)
  | _ => .error "TypeError: sequence item expected str instance"

/-- Python `sep.join(x)`: joins a list of strings, the characters of a string, or
the keys of a dict; `TypeError` otherwise. -/
def pyJoin (sep : String) : Json → Except String String
  | .arr xs => do
    let ss ← strsOf xs
    pure (joinSep sep ss)
  | .str s => .ok (joinSep sep (s.data.map fun c => String.mk [c]))
  | .obj fs => .ok (joinSep sep (fs.map Prod.fst))
  | _ => .error "TypeError: can only join an iterable"

mutual
/-- Python `repr(x)` for JSON-decoded values (string escaping elided; no claim
inspects a repr of a string containing quotes). -/
def pyRepr : Json → String
  | .null => "None"
  | .bool true => "True"
  | .bool false => "False"
  | .num n => toString n
  | .str s => "'" ++ s ++ "'"
  | .arr xs => "[" ++ pyReprList xs ++ "]"
  | .obj fs => "\x7b" ++ pyReprFields fs ++ "\x7d"
termination_by structural j => j

/-- Comma-separated reprs of list elements. -/
def pyReprList : List Json → String
  | [] => ""
  | x :: t => pyRepr x ++ (if t.isEmpty then "" else ", " ++ pyReprList t)
termination_by structural l => l

/-- Comma-separated reprs of dict entries. -/
def pyReprFields : List (String × Json) → String
  | [] => ""
  | (k, v) :: t => "'" ++ k ++ "': " ++ pyRepr v ++ (if t.isEmpty then "" else ", " ++ pyReprFields t)
termination_by structural l => l
end

/-- Python `str(x)` (used by f-string interpolation): identity on strings,
`repr`-like otherwise. -/
def pyStr : Json → String
  | .str s => s
  | j => pyRepr j

mutual
/-- Python `json.dumps`: the claims never inspect the concrete layout of a
successful dump other than `dumps .null = "null"`, so indentation options and
string escaping are abstracted to a compact rendering. -/
def dumps : Json → String
  | .null => "null"
  | .bool true => "true"
  | .bool false => "false"
  | .num n => toString n
  | .str s => "\"" ++ s ++ "\""
  | .arr xs => "[" ++ dumpsList xs ++ "]"
  | .obj fs => "\x7b" ++ dumpsFields fs ++ "\x7d"
termination_by structural j => j

/-- Comma-separated dumps of list elements. -/
def dumpsList : List Json → String
  | [] => ""
  | x :: t => dumps x ++ (if t.isEmpty then "" else ", " ++ dumpsList t)
termination_by structural l => l

/-- Comma-separated dumps of dict entries. -/
def dumpsFields : List (String × Json) → String
  | [] => ""
  | (k, v) :: t => "\"" ++ k ++ "\": " ++ dumps v ++ (if t.isEmpty then "" else ", " ++ dumpsFields t)
termination_by structural l => l
end

/-- Map a fallible function over a list, aborting at the first raised exception
(the semantics of a Python `for` loop or comprehension whose body may raise). -/
def exMapM {α : Type} (f : Json → Except String α) : List Json → Except String (List α)
  | [] => .ok []
  | x :: t => do
    let y ← f x
    let ys ← exMapM f t
    pure (y :: ys)

/-- An upstream request, identified by the Sefaria API endpoint reached and the
values that determine the concrete URL / POST body.  `specModelled` carries the
requests of handlers whose definitions are not under `src/`. -/
inductive Request where
  | textApi (reference version_language : Json)
  | searchApi (query : Json) (filters : List Json) (size : Json)
  | nameApi (nm limit type_filter : Json)
  | linksApi (reference with_text : Json)
  | shapeApi (nm : Json)
  | calendarsApi
  | specModelled (tool : String) (args : List Json)
deriving DecidableEq, Repr

/-- What the upstream service does with one request: parsed JSON, a
transport-level failure (`requests.exceptions.RequestException`), or an
unparsable body (`json.JSONDecodeError` from `response.json()`). -/
inductive UpstreamResult where
  | json (data : Json)
  | transportError (msg : String)
  | malformed (msg : String)
deriving DecidableEq, Repr

/-- The external collaborators of one call: the upstream HTTP service and the
opaque Hebrew-date string produced by the `hdate` library. -/
structure Upstream where
  respond : Request → UpstreamResult
  hebrewDate : String

/-- Embeds `sefaria_handler.get_text` lines 138-161: filters an upstream
`versions` entry down to exactly `languageFamilyName`, `text`, `versionTitle`
(in that dict-literal order), each defaulting to `""` via `.get`. -/
def projectVersion (v : Json) : Except String Json := do
  let a ← v.pyGetD "languageFamilyName" (.str "")
  let b ← v.pyGetD "text" (.str "")
  let c ← v.pyGetD "versionTitle" (.str "")
  pure (.obj [("languageFamilyName", a), ("text", b), ("versionTitle", c)])

/-- Embeds the `available_versions` projection of `sefaria_handler.get_text`
lines 151-159: exactly `versionTitle`, `languageFamilyName`, defaulting to `""`. -/
def projectAvailable (v : Json) : Except String Json := do
  let a ← v.pyGetD "versionTitle" (.str "")
  let b ← v.pyGetD "languageFamilyName" (.str "")
  pure (.obj [("versionTitle", a), ("languageFamilyName", b)])

/-- Embeds the response-processing part of `sefaria_handler.get_text`
(lines 138-161): rewrite the `versions` and `available_versions` collections
in place, leaving every other field of the payload untouched. -/
def get_text_process (data : Json) : Except String Json := do
  let c1 ← data.pyIn "versions"
  let d1 ←
    if c1 then do
      let vs ← data.idx "versions"
      let l ← pyIter vs
      let fl ← exMapM projectVersion l
      data.setItem "versions" (.arr fl)
    else pure data
  let c2 ← d1.pyIn "available_versions"
  if c2 then do
    let vs ← d1.idx "available_versions"
    let l ← pyIter vs
    let fl ← exMapM projectAvailable l
    d1.setItem "available_versions" (.arr fl)
  else pure d1

/-- Embeds `sefaria_handler.get_text` (lines 100-166).  `urllib.parse.quote`
raises `TypeError` on a non-string reference before any request is made; a
transport failure or unparsable body is caught and returned as a plain string
(note the prefixes `"Error fetching text: "` / `"Error parsing response: "`);
any other exception while processing the payload propagates (`Except.error`). -/
def get_text (u : Upstream) (reference version_language : Json) :
    Except String String × List Request :=
  match reference with
  | .str _ =>
    let req := Request.textApi reference version_language
    (match u.respond req with
     | .transportError e => .ok ("Error fetching text: " ++ e)
     | .malformed e => .ok ("Error parsing response: " ++ e)
     | .json data =>
       match get_text_process data with
       | .ok d => .ok (dumps d)
       | .error e => .error e,
     [req])
  | _ => (.error "TypeError: quote_from_bytes() expected bytes", [])

/-- Embeds line 189 of `sefaria_handler._search`:
`filters if isinstance(filters, list) else [filters] if filters else []`. -/
def coerceFilters (filters : Json) : List Json :=
  match filters with
  | .arr xs => xs
  | f => if pyTruthy f then [f] else []

/-- Embeds `sefaria_handler._search` (lines 169-228): coerce the filters, POST
the search payload, and return the parsed JSON; transport failures and
unparsable bodies are logged and re-raised. -/
def _search (u : Upstream) (query filters size : Json) :
    Except String Json × List Request :=
  let req := Request.searchApi query (coerceFilters filters) size
  (match u.respond req with
   | .json data => .ok data
   | .transportError e => .error e
   | .malformed e => .error e,
   [req])

/-- One normalized search result as built by `sefaria_handler.search_texts`
lines 291-317: the dict `{"ref": ..., "categories": ..., "text_snippet": ...}`. -/
structure Entry where
  ref : Json
  categories : Json
  text_snippet : String
deriving DecidableEq, Repr

/-- The JSON dict a normalized `Entry` denotes, keys in insertion order. -/
def entryToJson (e : Entry) : Json :=
  .obj [("ref", e.ref), ("categories", e.categories), ("text_snippet", .str e.text_snippet)]

/-- Embeds the highlight loop of `sefaria_handler.search_texts` lines 299-304:
the first field (in upstream order) whose `highlights` value is truthy and has
positive length sets the snippet to the fragments joined with `" [...] "`. -/
def highlightLoop : List (String × Json) → Except String String
  | [] => .ok ""
  | (_, hs) :: t =>
    if pyTruthy hs then do
      let n ← pyLen hs
      if 0 < n then pyJoin " [...] " hs
      else highlightLoop t
    else highlightLoop t

/-- Embeds the inline snippet truncation of `sefaria_handler.search_texts`
line 314: `content[:300] + ("..." if len(content) > 300 else "")` — the first
300 characters, with an ellipsis appended exactly when the content is longer. -/
def truncate300 (s : String) : String :=
  String.mk (s.data.take 300) ++ (if 300 < s.length then "..." else "")

/-- Embeds the plain-content loop of `sefaria_handler.search_texts` lines
308-315: the first present truthy field among `naive_lemmatizer`, `exact`
whose value is a string yields the truncated snippet; truthy non-string values
are skipped (no `break` outside the `isinstance` guard). -/
def plainLoop (sfs : List (String × Json)) : List String → String
  | [] => ""
  | fname :: t =>
    match lookupKey sfs fname with
    | some v =>
      if pyTruthy v then
        match v with
        | .str s => truncate300 s
        | _ => plainLoop sfs t
      else plainLoop sfs t
    | none => plainLoop sfs t

/-- Embeds the snippet selection of `sefaria_handler.search_texts` lines
296-315 for a hit whose `_source` fields are `sfs`: the highlight loop runs
when `"highlight" in hit` (raising when `hit["highlight"]` has no `.items()`),
and when it leaves the snippet falsy (`if not text_snippet`) the plain-content
loop over `sfs` decides. -/
def snippetOfHit (hit : Json) (sfs : List (String × Json)) : Except String String := do
  let hasHl ← hit.pyIn "highlight"
  let s1 ←
    if hasHl then do
      let hl ← hit.idx "highlight"
      match hl with
      | .obj hfs => highlightLoop hfs
      | _ => .error "AttributeError: object has no attribute items"
    else pure ""
  pure (if s1 = "" then plainLoop sfs ["naive_lemmatizer", "exact"] else s1)

/-- Embeds the per-hit body of `sefaria_handler.search_texts` lines 290-318:
`hit["_source"]` must exist and support `.get` (else the exception propagates);
`ref` defaults to `""`, `categories` to `[]`; the snippet is `snippetOfHit`. -/
def processHit (hit : Json) : Except String Entry := do
  let src ← hit.idx "_source"
  match src with
  | .obj sfs => do
    let snip ← snippetOfHit hit sfs
    pure ⟨(lookupKey sfs "ref").getD (.str ""),
          (lookupKey sfs "categories").getD (.arr []), snip⟩
  | _ => .error "AttributeError: object has no attribute get"

/-- Embeds lines 282-290 of `sefaria_handler.search_texts`: the guarded
extraction of the hit list.  `some hits` when `"hits" in data and "hits" in
data["hits"]` holds (after the dead read of the total count, whose `.get` can
still raise), `none` when the guard is false, `Except.error` when a step
raises.  The `isinstance`-based total-count refinement (lines 286-287) is pure
and its result unused, so it is not carried. -/
def hitsOfData (data : Json) : Except String (Option (List Json)) := do
  let c1 ← data.pyIn "hits"
  if c1 then do
    let dh ← data.idx "hits"
    let c2 ← dh.pyIn "hits"
    if c2 then do
      let _tot ← dh.pyGetD "total" (.num 0)
      let hv ← dh.idx "hits"
      let hits ← pyIter hv
      pure (some hits)
    else pure none
  else pure none

/-- Embeds the normalization loop of `sefaria_handler.search_texts` lines
278-318: process every hit in upstream order (an exception anywhere aborts the
whole call). -/
def searchResults (data : Json) : Except String (List Entry) := do
  match ← hitsOfData data with
  | some hits => exMapM processHit hits
  | none => pure []

/-- The Python value bound by `data = _search(...)` at line 276 and
`response = _search(...)` at line 242: `_search` is `async def`, and both call
sites omit `await`, so the call returns a coroutine object whose body — and
upstream POST — never runs.  (`json` is what the value would be had the call
been awaited; it is unreachable in the program.) -/
inductive PyVal where
  | json (j : Json)
  | coroutine
deriving Repr

/-- Python `k in x` on such a value: a coroutine object is not iterable. -/
def PyVal.pyIn : PyVal → String → Except String Bool
  | .json j, k => j.pyIn k
  | .coroutine, _ => .error "TypeError: argument of type 'coroutine' is not iterable"

/-- Python `x[k]` on such a value: a coroutine object is not subscriptable. -/
def PyVal.idx : PyVal → String → Except String Json
  | .json j, k => j.idx k
  | .coroutine, _ => .error "TypeError: 'coroutine' object is not subscriptable"

/-- Embeds the `try` body of `sefaria_handler.search_texts` after line 276
(lines 278-324), given the value `data` bound at line 276: on a coroutine the
first use, line 282's `"hits" in data`, raises `TypeError`; on JSON data the
normalization loop (`searchResults`) runs and the body returns the
empty-result message or the entry list. -/
def searchTextsBody (data : PyVal) (query : Json) : Except String Json :=
  match data with
  | .coroutine => .error "TypeError: argument of type 'coroutine' is not iterable"
  | .json j => do
    let entries ← searchResults j
    if entries.isEmpty then pure (.str ("No results found for '" ++ pyStr query ++ "'."))
    else pure (.arr (entries.map entryToJson))

set_option linter.unusedVariables false in
/-- Embeds `sefaria_handler.search_texts` (lines 262-327) as the source
executes: line 276 calls the `async def _search` WITHOUT `await`, so no
upstream request is ever issued and `data` is a coroutine object; the body
then raises `TypeError` at line 282, the bare `except Exception`
(lines 326-327) logs and swallows it, and the function falls off its end
returning `None` (`Json.null`) — for every query, filters, size and upstream
behavior. -/
def search_texts (u : Upstream) (query filters size : Json) : Json × List Request :=
  let data : PyVal := .coroutine
  (match searchTextsBody data query with
   | .ok v => v
   | .error _ => .null,
   [])

/-- The lexicon path-to-name table of `sefaria_handler.py` lines 11-18. -/
def lexicon_map : List (String × String) :=
  [("Reference/Dictionary/Jastrow", "Jastrow Dictionary"),
   ("Reference/Dictionary/Klein Dictionary", "Klein Dictionary"),
   ("Reference/Dictionary/BDB", "BDB Dictionary"),
   ("Reference/Dictionary/BDB Aramaic", "BDB Aramaic Dictionary"),
   ("Reference/Encyclopedic Works/Kovetz Yesodot VaChakirot", "Kovetz Yesodot VaChakirot")]

/-- The keys of `lexicon_map` (`sefaria_handler.py` line 20). -/
def lexicon_search_filters : List String := lexicon_map.map Prod.fst

/-- First-match lookup in a string-to-string association list (Python dict
subscript on `lexicon_map`). -/
def lookupStr : List (String × String) → String → Option String
  | [], _ => none
  | (k, v) :: t, k' => if k = k' then some v else lookupStr t k'

/-- Python `x[0]` on a JSON value: first element of a list (`IndexError` when
empty), first character of a string, `TypeError`/`KeyError` otherwise. -/
def Json.idx0 : Json → Except String Json
  | .arr (x :: _) => .ok x
  | .arr [] => .error "IndexError: list index out of range"
  | .str s =>
    match s.data with
    | c :: _ => .ok (.str (String.mk [c]))
    | [] => .error "IndexError: string index out of range"
  | .obj _ => .error "KeyError: 0"
  | _ => .error "TypeError: object is not subscriptable"

/-- Embeds the per-hit dict of `sefaria_handler.search_dictionaries` lines
244-252: `ref`, `headword` (`titleVariants[0]`), `lexicon_name`
(`lexicon_map[path]`), `text` (`exact`); every missing piece raises. -/
def dictEntry (hit : Json) : Except String Json := do
  let src ← hit.idx "_source"
  let refv ← src.idx "ref"
  let tv ← src.idx "titleVariants"
  let hw ← tv.idx0
  let pathv ← src.idx "path"
  let lex ←
    match pathv with
    | .str p =>
      match lookupStr lexicon_map p with
      | some nm => Except.ok (Json.str nm)
      | none => Except.error ("KeyError: " ++ p)
    | _ => Except.error "KeyError: unhashable path"
  let txt ← src.idx "exact"
  pure (.obj [("ref", refv), ("headword", hw), ("lexicon_name", lex), ("text", txt)])

set_option linter.unusedVariables false in
/-- Embeds `sefaria_handler.search_dictionaries` (lines 231-259) as the source
executes: line 242 calls the `async def _search` WITHOUT `await` (evaluating
only its arguments, the query and `lexicon_search_filters`), so no upstream
request is issued and `response` is a coroutine object; the comprehension's
`response["hits"]` (line 251) raises `TypeError`, which the `except` at lines
257-259 logs and re-raises. -/
def search_dictionaries (u : Upstream) (query : Json) :
    Except String Json × List Request :=
  let response : PyVal := .coroutine
  (match (do
     let h1 ← response.idx "hits"
     let h2 ← h1.idx "hits"
     let hits ← pyIter h2
     let es ← exMapM dictEntry hits
     pure (Json.arr es) : Except String Json) with
   | .ok v => .ok v
   | .error e => .error e,
   [])

/-- Embeds `sefaria_handler.get_name` (lines 330-375): `quote` needs a string
name; an unparsable body is caught as `"Error: Failed to parse JSON response: "`,
a transport failure as `"Error during name API request: "`. -/
def get_name (u : Upstream) (nm limit type_filter : Json) :
    Except String String × List Request :=
  match nm with
  | .str _ =>
    let req := Request.nameApi nm limit type_filter
    (match u.respond req with
     | .json d => .ok (dumps d)
     | .malformed e => .ok ("Error: Failed to parse JSON response: " ++ e)
     | .transportError e => .ok ("Error during name API request: " ++ e),
     [req])
  | _ => (.error "TypeError: quote_from_bytes() expected bytes", [])

/-- Embeds `sefaria_handler.get_links` (lines 377-417), same error shape as
`get_name` with `"Error during links API request: "`. -/
def get_links (u : Upstream) (reference with_text : Json) :
    Except String String × List Request :=
  match reference with
  | .str _ =>
    let req := Request.linksApi reference with_text
    (match u.respond req with
     | .json d => .ok (dumps d)
     | .malformed e => .ok ("Error: Failed to parse JSON response: " ++ e)
     | .transportError e => .ok ("Error during links API request: " ++ e),
     [req])
  | _ => (.error "TypeError: quote_from_bytes() expected bytes", [])

/-- Embeds `sefaria_handler.get_shape` (lines 419-455), same error shape with
`"Error during shape API request: "`. -/
def get_shape (u : Upstream) (nm : Json) : Except String String × List Request :=
  match nm with
  | .str _ =>
    let req := Request.shapeApi nm
    (match u.respond req with
     | .json d => .ok (dumps d)
     | .malformed e => .ok ("Error: Failed to parse JSON response: " ++ e)
     | .transportError e => .ok ("Error during shape API request: " ++ e),
     [req])
  | _ => (.error "TypeError: quote_from_bytes() expected bytes", [])

/-- Embeds `sefaria_handler.get_situational_info` (lines 61-96): a failed or
falsy calendar fetch yields the fallback error JSON carrying the Hebrew date;
a successful dict gains a `"Hebrew Date"` key; assigning into a non-dict raises
`TypeError`, which the function's own `except Exception` turns into the
`{"error": ...}` JSON.  (`get_request_json_data` catches transport failures,
returning `None`; an unparsable body raises `requests`' `JSONDecodeError`,
a `RequestException` subclass, hence is also caught to `None`.) -/
def get_situational_info (u : Upstream) : Except String String × List Request :=
  let req := Request.calendarsApi
  (match u.respond req with
   | .json data =>
     if pyTruthy data then
       match data.setItem "Hebrew Date" (.str u.hebrewDate) with
       | .ok d => .ok (dumps d)
       | .error e =>
         .ok (dumps (.obj [("error", .str ("Error retrieving situational information: " ++ e))]))
     else
       .ok (dumps (.obj [("error", .str "Could not retrieve calendar data from Sefaria"),
                         ("Hebrew Date", .str u.hebrewDate)]))
   | .transportError _ =>
     .ok (dumps (.obj [("error", .str "Could not retrieve calendar data from Sefaria"),
                       ("Hebrew Date", .str u.hebrewDate)]))
   | .malformed _ =>
     .ok (dumps (.obj [("error", .str "Could not retrieve calendar data from Sefaria"),
                       ("Hebrew Date", .str u.hebrewDate)])),
   [req])

/-- Modelled from the spec: `get_english_translations` is called by
`server.py` line 307 but its definition is not under `src/`.  Per the tool
catalog (§6) it takes `reference` and returns a text/version payload string;
modelled as serializing the upstream response, upstream failures raising. -/
def get_english_translations (u : Upstream) (reference : Json) :
    Except String String × List Request :=
  let req := Request.specModelled "get_english_translations" [reference]
  (match u.respond req with
   | .json d => .ok (dumps d)
   | .transportError e => .error e
   | .malformed e => .error e,
   [req])

/-- Modelled from the spec: `search_in_book` is called by `server.py` line 378
but its definition is not under `src/`.  Per the tool catalog (§6) it takes
`query`, `book_name` and `size` and returns search results; modelled as
returning the upstream JSON, upstream failures raising. -/
def search_in_book (u : Upstream) (query book_name size : Json) :
    Except String Json × List Request :=
  let req := Request.specModelled "search_in_book" [query, book_name, size]
  (match u.respond req with
   | .json d => .ok d
   | .transportError e => .error e
   | .malformed e => .error e,
   [req])

/-- Modelled from the spec: `get_search_path_filter` is called by `server.py`
line 461 but its definition is not under `src/`.  Per the tool catalog (§6)
its output is a "plain string path or explicit not-found failure"; modelled as
the path string when the upstream lookup yields one and Python `None`
(not found) otherwise, never raising. -/
def get_search_path_filter (u : Upstream) (book_name : Json) :
    Option String × List Request :=
  let req := Request.specModelled "get_search_path_filter" [book_name]
  (match u.respond req with
   | .json (.str s) => some s
   | _ => none,
   [req])

/-- Modelled from the spec: `get_topics` is called by `server.py` line 491 but
its definition is not under `src/`.  Per the tool catalog (§6) it takes
`topic_slug`, `with_links`, `with_refs` and passes the upstream JSON through;
modelled as serializing the upstream response, upstream failures raising. -/
def get_topics (u : Upstream) (topic_slug with_links with_refs : Json) :
    Except String String × List Request :=
  let req := Request.specModelled "get_topics" [topic_slug, with_links, with_refs]
  (match u.respond req with
   | .json d => .ok (dumps d)
   | .transportError e => .error e
   | .malformed e => .error e,
   [req])

/-- Modelled from the spec: `get_manuscripts` is called by `server.py` line 511
but its definition is not under `src/`.  Per the tool catalog (§6) it takes
`reference` and passes the upstream JSON through; modelled as serializing the
upstream response, upstream failures raising. -/
def get_manuscripts (u : Upstream) (reference : Json) :
    Except String String × List Request :=
  let req := Request.specModelled "get_manuscripts" [reference]
  (match u.respond req with
   | .json d => .ok (dumps d)
   | .transportError e => .error e
   | .malformed e => .error e,
   [req])

/-- Modelled from the spec: `get_index` is called by `server.py` line 531 but
its definition is not under `src/`.  Per the tool catalog (§6) it takes `title`
and passes the upstream JSON through; modelled as serializing the upstream
response, upstream failures raising. -/
def get_index (u : Upstream) (title : Json) : Except String String × List Request :=
  let req := Request.specModelled "get_index" [title]
  (match u.respond req with
   | .json d => .ok (dumps d)
   | .transportError e => .error e
   | .malformed e => .error e,
   [req])

/-- The names registered by `server.handle_list_tools` — the same thirteen names
`server.handle_call_tool` dispatches on. -/
def registeredToolNames : List String :=
  ["get_text", "get_english_translations", "get_links", "search_texts",
   "search_in_book", "search_dictionaries", "get_name", "get_shape",
   "get_search_path_filter", "get_topics", "get_manuscripts", "get_index",
   "get_situational_info"]

/-- Embeds the branch bodies of `server.handle_call_tool` (lines 277-565), in
source order.  `Except.ok s` is a `TextContent` with text `s` returned by the
branch; `Except.error e` is a Python exception with message `e` reaching the
branch's `except Exception` handler (or, for the final branch, the direct
`"Error: Unknown tool ..."` return, which renders to the identical payload).
Every branch first reads its arguments with `.get`, checks required ones for
truthiness (raising `ValueError("Missing <arg> parameter")` otherwise), and
only then invokes its handler. -/
def dispatchTool (u : Upstream) (name : String) (args : Json) :
    Except String String × List Request :=
  if name = "get_text" then
    match args.pyGetD "reference" .null with
    | .error e => (.error e, [])
    | .ok reference =>
      if !pyTruthy reference then (.error "Missing reference parameter", [])
      else
        match args.pyGetD "version_language" .null with
        | .error e => (.error e, [])
        | .ok vl => get_text u reference vl
  else if name = "get_english_translations" then
    match args.pyGetD "reference" .null with
    | .error e => (.error e, [])
    | .ok reference =>
      if !pyTruthy reference then (.error "Missing reference parameter", [])
      else get_english_translations u reference
  else if name = "get_links" then
    match args.pyGetD "reference" .null with
    | .error e => (.error e, [])
    | .ok reference =>
      if !pyTruthy reference then (.error "Missing reference parameter", [])
      else
        match args.pyGetD "with_text" (.str "0") with
        | .error e => (.error e, [])
        | .ok wt => get_links u reference wt
  else if name = "search_texts" then
    match args.pyGetD "query" .null with
    | .error e => (.error e, [])
    | .ok query =>
      if !pyTruthy query then (.error "Missing query parameter", [])
      else
        match args.pyGetD "filters" .null with
        | .error e => (.error e, [])
        | .ok filters =>
          match args.pyGetD "size" (.num 10) with
          | .error e => (.error e, [])
          | .ok size =>
            let (r, reqs) := search_texts u query filters size
            (.ok (dumps r), reqs)
  else if name = "search_in_book" then
    match args.pyGetD "query" .null with
    | .error e => (.error e, [])
    | .ok query =>
      if !pyTruthy query then (.error "Missing query parameter", [])
      else
        match args.pyGetD "book_name" .null with
        | .error e => (.error e, [])
        | .ok book_name =>
          if !pyTruthy book_name then (.error "Missing book_name parameter", [])
          else
            match args.pyGetD "size" (.num 10) with
            | .error e => (.error e, [])
            | .ok size =>
              let (r, reqs) := search_in_book u query book_name size
              (match r with
               | .ok v => .ok (dumps v)
               | .error e => .error e, reqs)
  else if name = "search_dictionaries" then
    match args.pyGetD "query" .null with
    | .error e => (.error e, [])
    | .ok query =>
      if !pyTruthy query then (.error "Missing query parameter", [])
      else
        let (r, reqs) := search_dictionaries u query
        (match r with
         | .ok v => .ok (dumps v)
         | .error e => .error e, reqs)
  else if name = "get_name" then
    match args.pyGetD "name" .null with
    | .error e => (.error e, [])
    | .ok nm =>
      if !pyTruthy nm then (.error "Missing name parameter", [])
      else
        match args.pyGetD "limit" .null with
        | .error e => (.error e, [])
        | .ok limit =>
          match args.pyGetD "type_filter" .null with
          | .error e => (.error e, [])
          | .ok tf => get_name u nm limit tf
  else if name = "get_shape" then
    match args.pyGetD "name" .null with
    | .error e => (.error e, [])
    | .ok nm =>
      if !pyTruthy nm then (.error "Missing name parameter", [])
      else get_shape u nm
  else if name = "get_search_path_filter" then
    match args.pyGetD "book_name" .null with
    | .error e => (.error e, [])
    | .ok book_name =>
      if !pyTruthy book_name then (.error "Missing book_name parameter", [])
      else
        let (r, reqs) := get_search_path_filter u book_name
        (match r with
         | some p => .ok p
         | none =>
           .ok ("Error: Could not convert book name '" ++ pyStr book_name ++
                "' to search filter path"), reqs)
  else if name = "get_topics" then
    match args.pyGetD "topic_slug" .null with
    | .error e => (.error e, [])
    | .ok slug =>
      if !pyTruthy slug then (.error "Missing topic_slug parameter", [])
      else
        match args.pyGetD "with_links" (.bool false) with
        | .error e => (.error e, [])
        | .ok wl =>
          match args.pyGetD "with_refs" (.bool false) with
          | .error e => (.error e, [])
          | .ok wr => get_topics u slug wl wr
  else if name = "get_manuscripts" then
    match args.pyGetD "reference" .null with
    | .error e => (.error e, [])
    | .ok reference =>
      if !pyTruthy reference then (.error "Missing reference parameter", [])
      else get_manuscripts u reference
  else if name = "get_index" then
    match args.pyGetD "title" .null with
    | .error e => (.error e, [])
    | .ok title =>
      if !pyTruthy title then (.error "Missing title parameter", [])
      else get_index u title
  else if name = "get_situational_info" then
    get_situational_info u
  else
    (.error ("Unknown tool " ++ name), [])

/-- Embeds `server.handle_call_tool` (lines 263-572): substitute `{}` for a
`None` argument bag, dispatch, and render the outcome as the single returned
`TextContent` — a branch's returned text verbatim, or `"Error: " ++ <message>`
for an exception caught by the branch's (or the outer) `except Exception`. -/
def handle_call_tool (u : Upstream) (name : String) (arguments : Option Json) :
    List String × List Request :=
  let args := arguments.getD (.obj [])
  (match (dispatchTool u name args).1 with
   | .ok s => [s]
   | .error e => ["Error: " ++ e],
   (dispatchTool u name args).2)

/-- A stub gateway on which every request fails at the transport level. -/
def stubFail : Upstream := ⟨fun _ => .transportError "Connection refused", "26 Tishrei 5787"⟩

/-- A stub gateway answering every request with the same parsed JSON. -/
def stubJson (j : Json) : Upstream := ⟨fun _ => .json j, "26 Tishrei 5787"⟩

/-- Whether a JSON value is a dict. -/
def Json.isObj : Json → Bool
  | .obj _ => true
  | _ => false

/-- The spec's description of field access in a projected version entry: the
upstream field's value when present, the empty string when missing. -/
def lookupD (v : Json) (k : String) : Json :=
  match v with
  | .obj fs => (lookupKey fs k).getD (.str "")
  | _ => .str ""

/-- The projection of one `versions` entry as the spec words it: exactly the
fields `languageFamilyName`, `text`, `versionTitle`, each defaulting to `""`. -/
def specProjectedVersion (v : Json) : Json :=
  .obj [("languageFamilyName", lookupD v "languageFamilyName"),
        ("text", lookupD v "text"),
        ("versionTitle", lookupD v "versionTitle")]

/-- The projection of one `available_versions` entry as the spec words it:
exactly `versionTitle` and `languageFamilyName`, each defaulting to `""`. -/
def specProjectedAvailable (v : Json) : Json :=
  .obj [("versionTitle", lookupD v "versionTitle"),
        ("languageFamilyName", lookupD v "languageFamilyName")]

/-- An already-normalized search-result list re-encoded as an upstream search
payload with matching field names: each entry's dict becomes a hit's
`_source`. -/
def renormalizeInput (entries : List Entry) : Json :=
  .obj [("hits", .obj [("hits",
    .arr (entries.map fun e => .obj [("_source", entryToJson e)]))])]

/-- Dict lookup on a JSON value, `none` on non-dicts (shape predicate used in
hypotheses about hits). -/
def lookupJ : Json → String → Option Json
  | .obj fs, k => lookupKey fs k
  | _, _ => none

/-- A hit with both a winning highlight and a plain field. -/
def c4HitA : Json :=
  .obj [("_source", .obj [("exact", .str "plain content")]),
        ("highlight", .obj [("text", .arr [.str "a", .str "b"])])]

/-- A hit whose only non-empty fragment list is `[""]`, preceded by an empty
one, with a plain fallback. -/
def c4HitB : Json :=
  .obj [("_source", .obj [("exact", .str "hello")]),
        ("highlight", .obj [("other", .arr []), ("text", .arr [.str ""])])]

/-- A hit with no highlight and both plain fields. -/
def c4HitC : Json :=
  .obj [("_source", .obj [("naive_lemmatizer", .str "naive"), ("exact", .str "exact")])]

/-- A hit with no highlight and only the `exact` field. -/
def c4HitD : Json :=
  .obj [("_source", .obj [("exact", .str "hi")])]

/-- A hit with no highlight and no plain content field. -/
def c4HitE : Json :=
  .obj [("_source", .obj [("ref", .str "r")])]

theorem isPrefixOf_append_self {α : Type} [BEq α] [LawfulBEq α] :
    ∀ l m : List α, l.isPrefixOf (l ++ m) = true
  | [], m => by simp [List.isPrefixOf]
  | a :: l, m => by simp [List.isPrefixOf, isPrefixOf_append_self l m]

theorem strIsPrefixOf_append (p e : String) : strIsPrefixOf p (p ++ e) = true := by
  show (p.data.isPrefixOf (p.data ++ e.data)) = true
  exact isPrefixOf_append_self p.data e.data

/-- C6: the filter-coercion step of `_search` (line 189) is a total function:
absent (`None`) and empty inputs yield `[]`, a single (truthy) string `"x"`
yields `["x"]`, and a list is passed through unchanged — order preserved, no
deduplication, no normalization, no validation, no failure. -/
theorem C6_filter_coercion :
    coerceFilters .null = [] ∧
    coerceFilters (.str "") = [] ∧
    coerceFilters (.arr []) = [] ∧
    (∀ xs : List Json, coerceFilters (.arr xs) = xs) ∧
    (∀ s : String, s ≠ "" → coerceFilters (.str s) = [.str s]) := by
  refine ⟨rfl, rfl, rfl, fun xs => rfl, fun s hs => ?_⟩
  simp [coerceFilters, pyTruthy, hs]

/-- Witness for C6 at the spec's own instances. -/
theorem C6_filter_coercion_witness :
    ("x" : String) ≠ "" ∧ coerceFilters (.str "x") = [.str "x"] ∧
    coerceFilters (.arr [.str "x", .str "y"]) = [.str "x", .str "y"] :=
  ⟨by decide, C6_filter_coercion.2.2.2.2 "x" (by decide),
   C6_filter_coercion.2.2.2.1 [.str "x", .str "y"]⟩

/-- C1: for every tool name (registered or not) and every raw argument bag the
dispatcher returns exactly one well-formed text payload — it is a total
function of its inputs, so no exception escapes — and whenever the dispatched
branch ends in a failure `e`, the payload is exactly `"Error: " ++ e`, a text
starting with `"Error: "`. -/
theorem C1_dispatcher_containment (u : Upstream) (name : String) (arguments : Option Json) :
    (handle_call_tool u name arguments).1.length = 1 ∧
    ∀ e, (dispatchTool u name (arguments.getD (.obj []))).1 = .error e →
      (handle_call_tool u name arguments).1 = ["Error: " ++ e] ∧
      strIsPrefixOf "Error: " ("Error: " ++ e) = true := by
  constructor
  · show (match (dispatchTool u name (arguments.getD (.obj []))).1 with
      | .ok s => [s]
      | .error e => ["Error: " ++ e]).length = 1
    cases (dispatchTool u name (arguments.getD (.obj []))).1 <;> rfl
  · intro e he
    refine ⟨?_, strIsPrefixOf_append "Error: " e⟩
    show (match (dispatchTool u name (arguments.getD (.obj []))).1 with
      | .ok s => [s]
      | .error e => ["Error: " ++ e]) = ["Error: " ++ e]
    rw [he]

/-- Witness for C1: an unregistered name with a missing argument bag on a
failing gateway still yields the single error payload. -/
theorem C1_dispatcher_containment_witness :
    (handle_call_tool stubFail "frobnicate" none).1.length = 1 ∧
    (handle_call_tool stubFail "frobnicate" none).1 = ["Error: " ++ "Unknown tool frobnicate"] :=
  ⟨(C1_dispatcher_containment stubFail "frobnicate" none).1,
   ((C1_dispatcher_containment stubFail "frobnicate" none).2 "Unknown tool frobnicate"
     (by decide)).1⟩

/-- C8: every tool name outside the registered catalog yields the
`"Error: Unknown tool <name>"` payload, which names the offending tool and
starts with the error marker; no upstream request is made. -/
theorem C8_unknown_tool (u : Upstream) (name : String) (arguments : Option Json)
    (h : name ∉ registeredToolNames) :
    (handle_call_tool u name arguments).1 = ["Error: " ++ ("Unknown tool " ++ name)] ∧
    strIsPrefixOf "Error: " ("Error: " ++ ("Unknown tool " ++ name)) = true ∧
    (handle_call_tool u name arguments).2 = [] := by
  have h1 : ¬(name = "get_text") := fun hh => h (hh ▸ (by decide))
  have h2 : ¬(name = "get_english_translations") := fun hh => h (hh ▸ (by decide))
  have h3 : ¬(name = "get_links") := fun hh => h (hh ▸ (by decide))
  have h4 : ¬(name = "search_texts") := fun hh => h (hh ▸ (by decide))
  have h5 : ¬(name = "search_in_book") := fun hh => h (hh ▸ (by decide))
  have h6 : ¬(name = "search_dictionaries") := fun hh => h (hh ▸ (by decide))
  have h7 : ¬(name = "get_name") := fun hh => h (hh ▸ (by decide))
  have h8 : ¬(name = "get_shape") := fun hh => h (hh ▸ (by decide))
  have h9 : ¬(name = "get_search_path_filter") := fun hh => h (hh ▸ (by decide))
  have h10 : ¬(name = "get_topics") := fun hh => h (hh ▸ (by decide))
  have h11 : ¬(name = "get_manuscripts") := fun hh => h (hh ▸ (by decide))
  have h12 : ¬(name = "get_index") := fun hh => h (hh ▸ (by decide))
  have h13 : ¬(name = "get_situational_info") := fun hh => h (hh ▸ (by decide))
  refine ⟨?_, strIsPrefixOf_append "Error: " ("Unknown tool " ++ name), ?_⟩ <;>
    simp [handle_call_tool, dispatchTool, h1, h2, h3, h4, h5, h6, h7, h8, h9, h10,
      h11, h12, h13]

/-- Witness for C8 at the spec's own instance `invoke("unknown_tool", {})`. -/
theorem C8_unknown_tool_witness :
    (handle_call_tool stubFail "unknown_tool" (some (.obj []))).1
      = ["Error: " ++ ("Unknown tool " ++ "unknown_tool")] :=
  (C8_unknown_tool stubFail "unknown_tool" (some (.obj [])) (by decide)).1

/-- C10: for every tool with a required string argument, a bag carrying that
argument with a falsy value (empty string, `None`, `0`, `[]`, ...) is rejected
exactly like an absent one — the `if not <arg>` guard fires, the payload is the
`"Error: Missing <arg> parameter"` envelope, and no upstream request is made. -/
theorem C10_falsy_required_args (u : Upstream) (v : Json) (hv : pyTruthy v = false) :
    handle_call_tool u "get_text" (some (.obj [("reference", v)]))
      = (["Error: Missing reference parameter"], []) ∧
    handle_call_tool u "get_english_translations" (some (.obj [("reference", v)]))
      = (["Error: Missing reference parameter"], []) ∧
    handle_call_tool u "get_links" (some (.obj [("reference", v)]))
      = (["Error: Missing reference parameter"], []) ∧
    handle_call_tool u "search_texts" (some (.obj [("query", v)]))
      = (["Error: Missing query parameter"], []) ∧
    handle_call_tool u "search_in_book" (some (.obj [("query", v), ("book_name", .str "Genesis")]))
      = (["Error: Missing query parameter"], []) ∧
    handle_call_tool u "search_in_book" (some (.obj [("query", .str "melech"), ("book_name", v)]))
      = (["Error: Missing book_name parameter"], []) ∧
    handle_call_tool u "search_dictionaries" (some (.obj [("query", v)]))
      = (["Error: Missing query parameter"], []) ∧
    handle_call_tool u "get_name" (some (.obj [("name", v)]))
      = (["Error: Missing name parameter"], []) ∧
    handle_call_tool u "get_shape" (some (.obj [("name", v)]))
      = (["Error: Missing name parameter"], []) ∧
    handle_call_tool u "get_search_path_filter" (some (.obj [("book_name", v)]))
      = (["Error: Missing book_name parameter"], []) ∧
    handle_call_tool u "get_topics" (some (.obj [("topic_slug", v)]))
      = (["Error: Missing topic_slug parameter"], []) ∧
    handle_call_tool u "get_manuscripts" (some (.obj [("reference", v)]))
      = (["Error: Missing reference parameter"], []) ∧
    handle_call_tool u "get_index" (some (.obj [("title", v)]))
      = (["Error: Missing title parameter"], []) := by
  have hm : pyTruthy (.str "melech") = true := by decide
  refine ⟨?_, ?_, ?_, ?_, ?_, ?_, ?_, ?_, ?_, ?_, ?_, ?_, ?_⟩ <;>
    simp [handle_call_tool, dispatchTool, Json.pyGetD, lookupKey, hv, hm]

/-- Witness for C10 at the empty string. -/
theorem C10_falsy_required_args_witness :
    pyTruthy (.str "") = false ∧
    handle_call_tool stubFail "get_text" (some (.obj [("reference", .str "")]))
      = (["Error: Missing reference parameter"], []) :=
  ⟨by decide, (C10_falsy_required_args stubFail (.str "") (by decide)).1⟩

/-- C2 counterexample: with a transport-failing gateway, a `search_texts`
call answers with the success payload `"null"` rather than an
`"Error: "`-prefixed envelope — the un-awaited `_search` at line 276 means the
upstream failure cannot even be observed: the body's `TypeError` is swallowed
by the bare `except` (lines 326-327) and the call returns `None` for every
gateway; and `get_text` surfaces the same transport failure as
`"Error fetching text: ..."`, which does not start with `"Error: "` either. -/
theorem C2_upstream_failure_counterexample :
    (handle_call_tool stubFail "search_texts" (some (.obj [("query", .str "moses")]))).1
      = ["null"] ∧
    strIsPrefixOf "Error: " "null" = false ∧
    (handle_call_tool stubFail "get_text" (some (.obj [("reference", .str "Genesis 1:1")]))).1
      = ["Error fetching text: Connection refused"] ∧
    strIsPrefixOf "Error: " "Error fetching text: Connection refused" = false := by
  decide

/-- C2 (amended): an upstream transport failure or unparsable body in
`get_text` is surfaced as a single text payload prefixed
`"Error fetching text: "` resp. `"Error parsing response: "` (not
`"Error: "`), with exactly one upstream request — the failure is never
retried.  `search_texts` never contacts the upstream at all: line 276 calls
the `async def _search` without `await`, so for every upstream behavior the
call issues zero requests and returns `None`, which the dispatcher serializes
as the non-error payload `"null"` — a would-be upstream failure is silently
absorbed rather than surfaced. -/
theorem C2_upstream_failure_surfacing
    (u1 u2 u3 : Upstream) (ref q e1 e2 : String)
    (href : ref ≠ "") (hq : q ≠ "")
    (h1 : u1.respond (.textApi (.str ref) .null) = .transportError e1)
    (h2 : u2.respond (.textApi (.str ref) .null) = .malformed e2) :
    handle_call_tool u1 "get_text" (some (.obj [("reference", .str ref)]))
      = (["Error fetching text: " ++ e1], [.textApi (.str ref) .null]) ∧
    handle_call_tool u2 "get_text" (some (.obj [("reference", .str ref)]))
      = (["Error parsing response: " ++ e2], [.textApi (.str ref) .null]) ∧
    handle_call_tool u3 "search_texts" (some (.obj [("query", .str q)]))
      = (["null"], []) := by
  have hr : pyTruthy (.str ref) = true := by simp [pyTruthy, href]
  have hqq : pyTruthy (.str q) = true := by simp [pyTruthy, hq]
  have hdn : dumps .null = "null" := rfl
  refine ⟨?_, ?_, ?_⟩ <;>
    simp [handle_call_tool, dispatchTool, Json.pyGetD, lookupKey, get_text,
      search_texts, searchTextsBody, hr, hqq, hdn, h1, h2]

/-- Witness for C2 at concrete stub gateways and messages. -/
theorem C2_upstream_failure_surfacing_witness :
    ("Genesis 1:1" : String) ≠ "" ∧ ("moses" : String) ≠ "" ∧
    handle_call_tool stubFail "get_text" (some (.obj [("reference", .str "Genesis 1:1")]))
      = (["Error fetching text: " ++ "Connection refused"],
         [.textApi (.str "Genesis 1:1") .null]) ∧
    handle_call_tool stubFail "search_texts" (some (.obj [("query", .str "moses")]))
      = (["null"], []) :=
  ⟨by decide, by decide,
   (C2_upstream_failure_surfacing stubFail ⟨fun _ => .malformed "bad json", "d"⟩
      stubFail "Genesis 1:1" "moses" "Connection refused" "bad json"
      (by decide) (by decide) rfl rfl).1,
   (C2_upstream_failure_surfacing stubFail ⟨fun _ => .malformed "bad json", "d"⟩
      stubFail "Genesis 1:1" "moses" "Connection refused" "bad json"
      (by decide) (by decide) rfl rfl).2.2⟩

/-- C9: for every truthy `book_name`, the `get_search_path_filter` tool answers
with either the plain string path produced by the (spec-modelled) lookup or
the explicit not-found failure naming the book — never any other kind of
error — and issues exactly one upstream request. -/
theorem C9_search_path_filter (u : Upstream) (book : Json) (hb : pyTruthy book = true) :
    (handle_call_tool u "get_search_path_filter" (some (.obj [("book_name", book)]))).1 =
      [match u.respond (.specModelled "get_search_path_filter" [book]) with
       | .json (.str p) => p
       | _ => "Error: Could not convert book name '" ++ pyStr book ++ "' to search filter path"] ∧
    (handle_call_tool u "get_search_path_filter" (some (.obj [("book_name", book)]))).2 =
      [.specModelled "get_search_path_filter" [book]] := by
  rcases hr : u.respond (.specModelled "get_search_path_filter" [book]) with d | e | e
  · cases d <;>
      simp [handle_call_tool, dispatchTool, get_search_path_filter, Json.pyGetD,
        lookupKey, hb, hr]
  · simp [handle_call_tool, dispatchTool, get_search_path_filter, Json.pyGetD,
      lookupKey, hb, hr]
  · simp [handle_call_tool, dispatchTool, get_search_path_filter, Json.pyGetD,
      lookupKey, hb, hr]

/-- Witness for C9: a stub gateway answering with a path string, and the
failing gateway producing the not-found message naming the book. -/
theorem C9_search_path_filter_witness :
    pyTruthy (.str "Genesis") = true ∧
    (handle_call_tool (stubJson (.str "Tanakh/Torah/Genesis")) "get_search_path_filter"
      (some (.obj [("book_name", .str "Genesis")]))).1 = ["Tanakh/Torah/Genesis"] ∧
    (handle_call_tool stubFail "get_search_path_filter"
      (some (.obj [("book_name", .str "Genesis")]))).1 =
      ["Error: Could not convert book name 'Genesis' to search filter path"] :=
  ⟨by decide,
   (C9_search_path_filter (stubJson (.str "Tanakh/Torah/Genesis")) (.str "Genesis")
     (by decide)).1,
   (C9_search_path_filter stubFail (.str "Genesis") (by decide)).1⟩

theorem lookup_setKey_self : ∀ (fs : List (String × Json)) (k : String) (v : Json),
    lookupKey (setKey fs k v) k = some v
  | [], k, v => by simp [setKey, lookupKey]
  | (k', v') :: t, k, v => by
    by_cases h : k' = k
    · simp [setKey, lookupKey, h]
    · simp [setKey, lookupKey, h, lookup_setKey_self t k v]

theorem lookup_setKey_ne : ∀ (fs : List (String × Json)) (k k' : String) (v : Json),
    k ≠ k' → lookupKey (setKey fs k v) k' = lookupKey fs k'
  | [], k, k', v, h => by simp [setKey, lookupKey, h]
  | (k0, v0) :: t, k, k', v, h => by
    by_cases h0 : k0 = k
    · simp [setKey, lookupKey, h0, h]
    · simp only [setKey, lookupKey, if_neg h0]
      by_cases h1 : k0 = k'
      · simp [lookupKey, h1]
      · simp [lookupKey, h1, lookup_setKey_ne t k k' v h]

theorem projectVersion_obj (fs : List (String × Json)) :
    projectVersion (.obj fs) = .ok (specProjectedVersion (.obj fs)) := rfl

theorem projectAvailable_obj (fs : List (String × Json)) :
    projectAvailable (.obj fs) = .ok (specProjectedAvailable (.obj fs)) := rfl

theorem exMapM_projectVersion : ∀ vs : List Json, (∀ v ∈ vs, v.isObj = true) →
    exMapM projectVersion vs = .ok (vs.map specProjectedVersion)
  | [], _ => rfl
  | v :: t, h => by
    have hv := h v (List.mem_cons_self v t)
    obtain ⟨fs, rfl⟩ : ∃ fs, v = .obj fs := by
      cases v <;> simp [Json.isObj] at hv ⊢
    have ht := exMapM_projectVersion t fun x hx => h x (List.mem_cons_of_mem _ hx)
    simp [exMapM, projectVersion_obj, ht, bind, Except.bind, pure, Except.pure]

theorem exMapM_projectAvailable : ∀ vs : List Json, (∀ v ∈ vs, v.isObj = true) →
    exMapM projectAvailable vs = .ok (vs.map specProjectedAvailable)
  | [], _ => rfl
  | v :: t, h => by
    have hv := h v (List.mem_cons_self v t)
    obtain ⟨fs, rfl⟩ : ∃ fs, v = .obj fs := by
      cases v <;> simp [Json.isObj] at hv ⊢
    have ht := exMapM_projectAvailable t fun x hx => h x (List.mem_cons_of_mem _ hx)
    simp [exMapM, projectAvailable_obj, ht, bind, Except.bind, pure, Except.pure]

/-- C5: a `get_text` payload whose `versions` and `available_versions` are
lists of dicts is rewritten in place so that every `versions` entry becomes
exactly `{languageFamilyName, text, versionTitle}` and every
`available_versions` entry exactly `{versionTitle, languageFamilyName}`, in
upstream list order, missing fields becoming `""` and no key omitted (this is
what `specProjectedVersion` / `specProjectedAvailable` spell out); both
rewritten collections are present in the result. -/
theorem C5_version_projection (fs : List (String × Json)) (vs avs : List Json)
    (hv : lookupKey fs "versions" = some (.arr vs))
    (ha : lookupKey fs "available_versions" = some (.arr avs))
    (hvo : ∀ v ∈ vs, v.isObj = true)
    (hao : ∀ v ∈ avs, v.isObj = true) :
    get_text_process (.obj fs) =
      .ok (.obj (setKey (setKey fs "versions" (.arr (vs.map specProjectedVersion)))
            "available_versions" (.arr (avs.map specProjectedAvailable)))) ∧
    lookupKey (setKey (setKey fs "versions" (.arr (vs.map specProjectedVersion)))
        "available_versions" (.arr (avs.map specProjectedAvailable))) "versions"
      = some (.arr (vs.map specProjectedVersion)) ∧
    lookupKey (setKey (setKey fs "versions" (.arr (vs.map specProjectedVersion)))
        "available_versions" (.arr (avs.map specProjectedAvailable))) "available_versions"
      = some (.arr (avs.map specProjectedAvailable)) := by
  have hne : ("versions" : String) ≠ "available_versions" := by decide
  have hne2 : ("available_versions" : String) ≠ "versions" := by decide
  have hl1 : lookupKey (setKey fs "versions" (.arr (vs.map specProjectedVersion)))
      "available_versions" = some (.arr avs) := by
    rw [lookup_setKey_ne fs "versions" "available_versions" _ hne, ha]
  refine ⟨?_, ?_, ?_⟩
  · simp [get_text_process, Json.pyIn, Json.idx, Json.setItem, pyIter, hv, ha, hl1,
      exMapM_projectVersion vs hvo, exMapM_projectAvailable avs hao,
      bind, Except.bind, pure, Except.pure]
  · rw [lookup_setKey_ne _ "available_versions" "versions" _ hne2,
      lookup_setKey_self fs "versions"]
  · rw [lookup_setKey_self]

/-- Witness for C5: a concrete payload with one entry in each collection,
extra upstream fields dropped and missing ones defaulted to `""`. -/
theorem C5_version_projection_witness :
    get_text_process (.obj [("ref", .str "Genesis 1:1"),
      ("versions", .arr [.obj [("versionTitle", .str "KJV"), ("license", .str "PD")]]),
      ("available_versions", .arr [.obj [("languageFamilyName", .str "hebrew")]])]) =
    .ok (.obj [("ref", .str "Genesis 1:1"),
      ("versions", .arr [.obj [("languageFamilyName", .str ""), ("text", .str ""),
        ("versionTitle", .str "KJV")]]),
      ("available_versions", .arr [.obj [("versionTitle", .str ""),
        ("languageFamilyName", .str "hebrew")]])]) :=
  (C5_version_projection
    [("ref", .str "Genesis 1:1"),
     ("versions", .arr [.obj [("versionTitle", .str "KJV"), ("license", .str "PD")]]),
     ("available_versions", .arr [.obj [("languageFamilyName", .str "hebrew")]])]
    [.obj [("versionTitle", .str "KJV"), ("license", .str "PD")]]
    [.obj [("languageFamilyName", .str "hebrew")]]
    (by decide) (by decide) (by decide) (by decide)).1

theorem processHit_wrap (e : Entry) :
    processHit (.obj [("_source", entryToJson e)]) = .ok ⟨e.ref, e.categories, ""⟩ := by
  simp [processHit, snippetOfHit, entryToJson, Json.idx, Json.pyIn, lookupKey, plainLoop,
    bind, Except.bind, pure, Except.pure]

theorem exMapM_processHit_wrap : ∀ entries : List Entry,
    exMapM processHit (entries.map fun e => .obj [("_source", entryToJson e)])
      = .ok (entries.map fun e => ⟨e.ref, e.categories, ""⟩)
  | [] => rfl
  | e :: t => by
    simp [exMapM, processHit_wrap, exMapM_processHit_wrap t, bind, Except.bind,
      pure, Except.pure]

theorem map_strip_of_empty : ∀ entries : List Entry,
    (∀ e ∈ entries, e.text_snippet = "") →
    (entries.map fun e => (⟨e.ref, e.categories, ""⟩ : Entry)) = entries
  | [], _ => rfl
  | ⟨r, c, s⟩ :: t, h => by
    have he : s = "" := h ⟨r, c, s⟩ (List.mem_cons_self _ t)
    have ht := map_strip_of_empty t fun x hx => h x (List.mem_cons_of_mem _ hx)
    simp [ht, he]

/-- C7 (amended): renormalizing an already-normalized search-result list
reproduces every entry's `ref` and `categories` in order, but re-derives every
`text_snippet` as `""` — the normalized shape carries no source-content field
the snippet extractor reads — so the pass reproduces the exact sequence
precisely when every entry's snippet is empty. -/
theorem C7_renormalize (entries : List Entry) :
    searchResults (renormalizeInput entries)
      = .ok (entries.map fun e => ⟨e.ref, e.categories, ""⟩) ∧
    ((∀ e ∈ entries, e.text_snippet = "") →
      searchResults (renormalizeInput entries) = .ok entries) := by
  have h1 : searchResults (renormalizeInput entries)
      = .ok (entries.map fun e => ⟨e.ref, e.categories, ""⟩) := by
    simp [searchResults, hitsOfData, renormalizeInput, Json.pyIn, Json.idx,
      Json.pyGetD, pyIter, lookupKey, exMapM_processHit_wrap, bind, Except.bind,
      pure, Except.pure]
  exact ⟨h1, fun h => by rw [h1, map_strip_of_empty entries h]⟩

/-- C7 counterexample: one normalized entry with a non-empty snippet is not
reproduced — its snippet re-derives as `""`. -/
theorem C7_renormalize_counterexample :
    searchResults (renormalizeInput
        [⟨.str "Genesis 1:1", .arr [.str "Tanakh"], "In the beginning"⟩])
      = .ok [⟨.str "Genesis 1:1", .arr [.str "Tanakh"], ""⟩] ∧
    Except.ok [(⟨.str "Genesis 1:1", .arr [.str "Tanakh"], ""⟩ : Entry)] ≠
      (Except.ok [(⟨.str "Genesis 1:1", .arr [.str "Tanakh"], "In the beginning"⟩ : Entry)]
        : Except String (List Entry)) := by
  refine ⟨?_, by decide⟩
  decide

/-- Witness for C7: a list whose snippets are all empty is reproduced exactly. -/
theorem C7_renormalize_witness :
    (∀ e ∈ [(⟨.str "Genesis 1:1", .arr [.str "Tanakh"], ""⟩ : Entry)],
      e.text_snippet = "") ∧
    searchResults (renormalizeInput [⟨.str "Genesis 1:1", .arr [.str "Tanakh"], ""⟩])
      = .ok [⟨.str "Genesis 1:1", .arr [.str "Tanakh"], ""⟩] :=
  ⟨by decide, (C7_renormalize _).2 (by decide)⟩

/-- C3 (code bug): the claim matches the evident intent of the normalization
loop (lines 278-324) and the spec, but line 276 calls the `async def _search`
without `await`, so the loop is dead code: for every upstream gateway —
including one ready to return 3 hits for
`invoke("search_texts", {"query": "moses", "filters": ["Tanakh"], "size": 5})`
— the call issues no upstream request and answers with the payload `"null"`,
never with normalized entries. -/
theorem C3_missing_await_always_null (u : Upstream) :
    handle_call_tool u "search_texts"
      (some (.obj [("query", .str "moses"), ("filters", .arr [.str "Tanakh"]),
                   ("size", .num 5)]))
      = (["null"], []) := by
  have hm : pyTruthy (.str "moses") = true := by decide
  have hdn : dumps .null = "null" := rfl
  simp [handle_call_tool, dispatchTool, Json.pyGetD, lookupKey, search_texts,
    searchTextsBody, hm, hdn]

theorem strsOf_map : ∀ frs : List String, strsOf (frs.map Json.str) = .ok frs
  | [] => rfl
  | s :: t => by simp [strsOf, strsOf_map t, bind, Except.bind, pure, Except.pure]

theorem pyJoin_map_str (sep : String) (frs : List String) :
    pyJoin sep (.arr (frs.map Json.str)) = .ok (joinSep sep frs) := by
  simp [pyJoin, strsOf_map, bind, Except.bind, pure, Except.pure]

theorem highlightLoop_skip :
    ∀ (pre rest : List (String × Json)), (∀ p ∈ pre, p.2 = .arr []) →
    highlightLoop (pre ++ rest) = highlightLoop rest
  | [], rest, _ => rfl
  | (k, v) :: t, rest, h => by
    have hv : v = .arr [] := h (k, v) (List.mem_cons_self _ t)
    subst hv
    show highlightLoop ((k, .arr []) :: (t ++ rest)) = highlightLoop rest
    rw [highlightLoop]
    simp [pyTruthy]
    exact highlightLoop_skip t rest fun p hp => h p (List.mem_cons_of_mem _ hp)

theorem highlightLoop_cons_hit (fname : String) (frs : List String)
    (post : List (String × Json)) (hne : frs ≠ []) :
    highlightLoop ((fname, .arr (frs.map Json.str)) :: post)
      = .ok (joinSep " [...] " frs) := by
  have ht : pyTruthy (.arr (frs.map Json.str)) = true := by
    cases frs with
    | nil => exact absurd rfl hne
    | cons a t => rfl
  have hl : 0 < (frs.map Json.str).length := by
    cases frs with
    | nil => exact absurd rfl hne
    | cons a t => simp
  rw [highlightLoop, if_pos ht]
  simp only [pyLen, bind, Except.bind]
  rw [if_pos hl]
  exact pyJoin_map_str " [...] " frs

/-- C4 (amended): the snippet of a hit is chosen by the deterministic priority
the spec states, with one proviso: a highlight field wins only when its joined
fragments are non-empty.  In detail, for a hit with source fields `sfs`:
a highlight field with a non-empty fragment list, preceded only by fields with
empty fragment lists, sets the snippet to the fragments joined with
`" [...] "` — taking precedence over every plain field — provided the join is
non-empty; when the join is empty (a lone empty fragment) the plain-content
fallback applies after all; without a highlight mapping the snippet is the
first present non-empty string field among `naive_lemmatizer`, `exact`,
truncated by `truncate300`; `truncate300` leaves strings of at most 300
characters untruncated and cuts longer ones to 300 characters plus `"..."`;
and with neither source the snippet is `""`. -/
theorem C4_snippet_priority (hit : Json) (sfs : List (String × Json))
    (hsrc : lookupJ hit "_source" = some (.obj sfs)) :
    (∀ (pre post : List (String × Json)) (fname : String) (frs : List String),
      lookupJ hit "highlight"
          = some (.obj (pre ++ (fname, .arr (frs.map Json.str)) :: post)) →
      (∀ p ∈ pre, p.2 = .arr []) → frs ≠ [] → joinSep " [...] " frs ≠ "" →
      processHit hit = .ok ⟨(lookupKey sfs "ref").getD (.str ""),
        (lookupKey sfs "categories").getD (.arr []), joinSep " [...] " frs⟩) ∧
    (∀ (pre post : List (String × Json)) (fname : String),
      lookupJ hit "highlight" = some (.obj (pre ++ (fname, .arr [.str ""]) :: post)) →
      (∀ p ∈ pre, p.2 = .arr []) →
      processHit hit = .ok ⟨(lookupKey sfs "ref").getD (.str ""),
        (lookupKey sfs "categories").getD (.arr []),
        plainLoop sfs ["naive_lemmatizer", "exact"]⟩) ∧
    (lookupJ hit "highlight" = none →
      processHit hit = .ok ⟨(lookupKey sfs "ref").getD (.str ""),
        (lookupKey sfs "categories").getD (.arr []),
        plainLoop sfs ["naive_lemmatizer", "exact"]⟩) ∧
    (∀ s : String, lookupKey sfs "naive_lemmatizer" = some (.str s) → s ≠ "" →
      plainLoop sfs ["naive_lemmatizer", "exact"] = truncate300 s) ∧
    (∀ t : String, lookupKey sfs "naive_lemmatizer" = none →
      lookupKey sfs "exact" = some (.str t) → t ≠ "" →
      plainLoop sfs ["naive_lemmatizer", "exact"] = truncate300 t) ∧
    (lookupKey sfs "naive_lemmatizer" = none → lookupKey sfs "exact" = none →
      plainLoop sfs ["naive_lemmatizer", "exact"] = "") ∧
    (∀ s : String, s.length ≤ 300 → truncate300 s = s) ∧
    (∀ s : String, 300 < s.length →
      truncate300 s = String.mk (s.data.take 300) ++ "...") := by
  obtain ⟨fs, rfl⟩ : ∃ fs, hit = .obj fs := by
    cases hit with
    | obj fs => exact ⟨fs, rfl⟩
    | null => simp [lookupJ] at hsrc
    | bool b => simp [lookupJ] at hsrc
    | num n => simp [lookupJ] at hsrc
    | str s => simp [lookupJ] at hsrc
    | arr xs => simp [lookupJ] at hsrc
  simp only [lookupJ] at hsrc
  refine ⟨?_, ?_, ?_, ?_, ?_, ?_, ?_, ?_⟩
  · intro pre post fname frs hhl hpre hne hjoin
    simp only [lookupJ] at hhl
    have hloop : highlightLoop (pre ++ (fname, .arr (frs.map Json.str)) :: post)
        = .ok (joinSep " [...] " frs) := by
      rw [highlightLoop_skip pre _ hpre, highlightLoop_cons_hit fname frs post hne]
    simp [processHit, snippetOfHit, Json.idx, Json.pyIn, hsrc, hhl, hloop,
      bind, Except.bind, pure, Except.pure, hjoin]
  · intro pre post fname hhl hpre
    simp only [lookupJ] at hhl
    have hloop : highlightLoop (pre ++ (fname, .arr [.str ""]) :: post) = .ok "" := by
      rw [highlightLoop_skip pre _ hpre]
      have := highlightLoop_cons_hit fname [""] post (by decide)
      simpa using this
    simp [processHit, snippetOfHit, Json.idx, Json.pyIn, hsrc, hhl, hloop,
      bind, Except.bind, pure, Except.pure]
  · intro hhl
    simp only [lookupJ] at hhl
    simp [processHit, snippetOfHit, Json.idx, Json.pyIn, hsrc, hhl,
      bind, Except.bind, pure, Except.pure]
  · intro s hn hs
    simp [plainLoop, hn, pyTruthy, hs]
  · intro t hn he ht
    simp [plainLoop, hn, he, pyTruthy, ht]
  · intro hn he
    simp [plainLoop, hn, he]
  · intro s hle
    have h1 : ¬(300 < s.length) := by omega
    have h2 : s.data.take 300 = s.data := List.take_of_length_le hle
    simp [truncate300, h1, h2]
  · intro s hgt
    simp [truncate300, hgt]

/-- C4 counterexample: a hit whose first non-empty highlight fragment list is
`[""]` joins to the empty string, and the code then falls back to the plain
`exact` field — the highlight does not take precedence as the claim states. -/
theorem C4_snippet_counterexample :
    processHit (.obj [("_source", .obj [("exact", .str "hello")]),
                      ("highlight", .obj [("text", .arr [.str ""])])])
      = .ok ⟨.str "", .arr [], "hello"⟩ ∧
    pyJoin " [...] " (.arr [.str ""]) = .ok "" ∧
    ("hello" : String) ≠ "" := by
  decide

/-- Witness for C4 exercising every clause of the amended statement. -/
theorem C4_snippet_priority_witness :
    processHit c4HitA = .ok ⟨.str "", .arr [], "a [...] b"⟩ ∧
    processHit c4HitB = .ok ⟨.str "", .arr [], "hello"⟩ ∧
    processHit c4HitC = .ok ⟨.str "", .arr [], "naive"⟩ ∧
    processHit c4HitD = .ok ⟨.str "", .arr [], "hi"⟩ ∧
    processHit c4HitE = .ok ⟨.str "r", .arr [], ""⟩ ∧
    truncate300 "short" = "short" :=
  ⟨(C4_snippet_priority c4HitA [("exact", .str "plain content")] (by decide)).1
     [] [] "text" ["a", "b"] (by decide) (by decide) (by decide) (by decide),
   (C4_snippet_priority c4HitB [("exact", .str "hello")] (by decide)).2.1
     [("other", .arr [])] [] "text" (by decide) (by decide),
   (C4_snippet_priority c4HitC
       [("naive_lemmatizer", .str "naive"), ("exact", .str "exact")] (by decide)).2.2.1
     (by decide),
   (C4_snippet_priority c4HitD [("exact", .str "hi")] (by decide)).2.2.1 (by decide),
   (C4_snippet_priority c4HitE [("ref", .str "r")] (by decide)).2.2.1 (by decide),
   (C4_snippet_priority c4HitE [("ref", .str "r")] (by decide)).2.2.2.2.2.2.1
     "short" (by decide)⟩
